import Mathlib

/-!
Verification of the natural-language specification of the
SpartanBB/backblazeb2 presigned-URL demo script against a shallow
embedding of src/presigned_url.py.

The program has two pieces of logic:
  * a module-level endpoint resolver (lines 20-38) that reads an optional
    environment override named s3ApiUrl, validates its dotted shape against
    an allow-list of region codes, and otherwise keeps the compiled-in
    default endpoint;
  * a dispatcher, usage_demo (lines 65-109), that maps a CLI action to a
    boto3 client method, asks the external signer for a presigned URL, and
    either performs one HTTP call or prints the URL together with an
    equivalent curl invocation.

External collaborators (the boto3 signer, the requests HTTP transport, the
local filesystem) are passed in as function parameters, so theorems
quantify over their behavior.  Machine-level details (TLS, HMAC signing)
are left abstract: the signer is an arbitrary function returning either a URL or
a ClientError.
-/

/-- Log levels of the Python logging module, as used by the script
(logger.debug / logger.info / logger.warning / logger.error). -/
inductive LogLevel where
  | debug
  | info
  | warning
  | error
deriving DecidableEq, Repr

/-- One emitted log record: its level and its formatted message. -/
structure LogEntry where
  level : LogLevel
  msg : String
deriving DecidableEq, Repr

/-- The Endpoint Configuration of the spec data model: the module-level
variables region (line 20) and endpoint_url (line 21 / 35). -/
structure EndpointConfig where
  region : String
  endpoint_url : String
deriving DecidableEq, Repr

/-- Python str.split(sep) for a one-character separator, over the character
list of the string: splits at every occurrence, keeping empty pieces, and
returns one (possibly empty) piece even for the empty input. -/
def splitOnDotAux : List Char → List (List Char)
  | [] => [[]]
  | c :: cs =>
    let r := splitOnDotAux cs
    if c = '.' then [] :: r
    else
      match r with
      | [] => [[c]]
      | p :: ps => (c :: p) :: ps

/-- Python str.split on the separator string, as used on line 29 of the
source: environ.get(...).split('.'). -/
def pySplitDot (s : String) : List String :=
  (splitOnDotAux s.toList).map (fun l => String.mk l)

/-- Python str.join(list) with separator, as used on line 35 of the
source: join(environ_endpoint_url). -/
def pyJoinDot : List String → String
  | [] => ""
  | [x] => x
  | x :: xs => x ++ "." ++ pyJoinDot xs

/-- The fixed allow-list of supported region codes (line 34). -/
def allowedRegions : List String :=
  ["us-west-000", "us-west-001", "us-west-002", "eu-central-003"]

/-- Embedding of the module-level endpoint resolver, src/presigned_url.py
lines 20-38.  The input is the optional value of the s3ApiUrl environment
variable (None when absent).  The result is the pair of the Endpoint
Configuration the module ends up with and the list of log records emitted.
Every operation in the try block is total on string input (the indexing is
guarded by the length test through short-circuit evaluation), so the bare
except branch of the source, which would log an error and keep the
defaults, is unreachable and the embedding is a total function: resolution
never propagates an exception. -/
def resolveEndpoint (s3ApiUrl : Option String) : EndpointConfig × List LogEntry :=
  let region := "us-west-002"
  let endpoint_url := "https://s3." ++ region ++ ".backblazeb2.com"
  let log1 : LogEntry := ⟨LogLevel.debug, "Getting s3ApiUrl value"⟩
  let environ_endpoint_url :=
    pySplitDot (s3ApiUrl.getD ("https://s3." ++ region ++ ".backblazeb2.com"))
  let endpoint_url :=
    if environ_endpoint_url.length = 4
        ∧ environ_endpoint_url.getD 0 "" = "https://s3"
        ∧ environ_endpoint_url.getD 2 "" = "backblazeb2"
        ∧ environ_endpoint_url.getD 2 "" = "com" then
      if environ_endpoint_url.getD 1 "" ∈ allowedRegions then
        pyJoinDot environ_endpoint_url
      else endpoint_url
    else endpoint_url
  let log2 : LogEntry := ⟨LogLevel.debug, "Using the s3ApiUrl " ++ endpoint_url ++ "."⟩
  (⟨region, endpoint_url⟩, [log1, log2])

/-- A correctly formed override string in the sense of the spec: splitting
on the dot yields exactly 4 segments, segment 0 is the scheme-plus-s3
part, segments 2 and 3 are the provider domain components, and segment 1
is an allow-listed region code.  This predicate is written from the words
of the spec (section 4.1) so that the resolver can be compared against
it. -/
def wellFormedOverride (s : String) : Prop :=
  (pySplitDot s).length = 4
    ∧ (pySplitDot s).getD 0 "" = "https://s3"
    ∧ (pySplitDot s).getD 2 "" = "backblazeb2"
    ∧ (pySplitDot s).getD 3 "" = "com"
    ∧ (pySplitDot s).getD 1 "" ∈ allowedRegions

instance (s : String) : Decidable (wellFormedOverride s) := by
  unfold wellFormedOverride
  exact inferInstance

/-- The error raised by the external boto3 signer (botocore ClientError),
kept abstract apart from a message. -/
structure ClientError where
  msg : String
deriving DecidableEq, Repr

/-- The Params dictionary passed to the signer on line 83:
Bucket and Key. -/
structure MethodParams where
  Bucket : String
  Key : String
deriving DecidableEq, Repr

/-- Embedding of generate_presigned_url, src/presigned_url.py lines 41-62.
The s3_client collaborator is the function from client method, parameters
and expiry to either a URL or a ClientError.  The source logs and
re-raises on ClientError (raise on line 61) and returns the URL
otherwise; the embedding makes the re-raise explicit as the error
constructor of Except. -/
def generate_presigned_url
    (s3_client : String → MethodParams → Nat → Except ClientError String)
    (client_method : String) (method_parameters : MethodParams)
    (expires_in : Nat) : Except ClientError String :=
  match s3_client client_method method_parameters expires_in with
  | Except.ok url => Except.ok url
  | Except.error e => Except.error e

/-- The four CLI actions accepted by the argument parser (line 74). -/
inductive CliAction where
  | get
  | put
  | dryget
  | dryput
deriving DecidableEq, Repr

/-- The action-to-client-method mapping of line 81:
get_object if the action is get or dryget, else put_object. -/
def client_action (action : CliAction) : String :=
  if action ∈ [CliAction.get, CliAction.dryget] then "get_object" else "put_object"

/-- An HTTP call performed through the requests collaborator:
requests.get(url) on line 88 or requests.put(url, data) on line 93. -/
inductive HttpCall where
  | get (url : String)
  | put (url : String) (body : String)
deriving DecidableEq, Repr

/-- The response object of the requests collaborator: status_code and
text, as printed on lines 106-107. -/
structure HttpResponse where
  status_code : Nat
  text : String
deriving DecidableEq, Repr

/-- The failures that can propagate out of usage_demo: the re-raised
signer error (spec name SigningError) and the exception of the failed
open/read of the local upload file (spec name FileReadError). -/
inductive DemoError where
  | signingError (e : ClientError)
  | fileReadError (key : String)
deriving DecidableEq, Repr

/-- The observable outcome of one usage_demo run: the HTTP calls made, the
lines printed to standard output, and the error that propagated out, if
any. -/
structure DemoResult where
  calls : List HttpCall
  output : List String
  err : Option DemoError
deriving DecidableEq, Repr

/-- The 88-dash separator line printed on lines 66, 68 and 109. -/
def dashes : String := String.mk (List.replicate 88 '-')

/-- The curl invocation printed by both dry-run branches (lines 100 and
103 of the source are the same f-string). -/
def curl_line (url filename : String) : String :=
  "curl -XPUT \x27" ++ url ++ "\x27 -T " ++ filename ++
    " -H \"X-Bz-Content-Sha1: $(sha1sum " ++ filename ++ " |cut -d\x27 \x27  -f1)\""

/-- Embedding of usage_demo, src/presigned_url.py lines 65-109, after
argument parsing (parsing itself is embedded separately as parse_args).
Collaborators are parameters: s3_client is the signer, http the requests
transport, fs the local filesystem (reading the file named by a key as
text, or failing).  Faithful control flow: the banner is printed, the
signer is called once with the mapped client method (a signer error
propagates, ending the run with no HTTP call); for get one GET is
performed, for put the file is read (a read failure propagates before any
HTTP call) and then one PUT is performed; for the dry actions no HTTP call
is made and the URL plus a curl invocation are printed; for the non-dry
actions the response status and body are printed. -/
def usage_demo
    (s3_client : String → MethodParams → Nat → Except ClientError String)
    (http : HttpCall → HttpResponse)
    (fs : String → Except Unit String)
    (bucket key : String) (action : CliAction) (timeout : Nat) : DemoResult :=
  let out0 := [dashes, "Welcome to the Amazon S3 presigned URL demo.", dashes]
  match generate_presigned_url s3_client (client_action action) ⟨bucket, key⟩ timeout with
  | Except.error e => ⟨[], out0, some (DemoError.signingError e)⟩
  | Except.ok url =>
    let out1 := out0 ++ ["Using the Requests package to send a request to the URL."]
    match action with
    | CliAction.get =>
      let response := http (HttpCall.get url)
      ⟨[HttpCall.get url],
       out1 ++ ["Got response:", "Status: " ++ toString response.status_code,
                response.text, dashes],
       none⟩
    | CliAction.put =>
      match fs key with
      | Except.error _ =>
        ⟨[], out1 ++ ["Putting data to the URL."], some (DemoError.fileReadError key)⟩
      | Except.ok object_text =>
        let response := http (HttpCall.put url object_text)
        ⟨[HttpCall.put url object_text],
         out1 ++ ["Putting data to the URL.", "Got response:",
                  "Status: " ++ toString response.status_code, response.text, dashes],
         none⟩
    | CliAction.dryget =>
      ⟨[],
       out1 ++ ["The presigned URL is: " ++ url,
                "To download the file you can use", curl_line url key],
       none⟩
    | CliAction.dryput =>
      ⟨[],
       out1 ++ ["The presigned URL is: " ++ url,
                "To upload the file you can use", curl_line url key],
       none⟩

/-- The result of argument parsing: the four positional values (timeout is
kept as the raw string, converted with int() on line 83 of the source). -/
structure ParsedArgs where
  bucket : String
  key : String
  action : CliAction
  timeout : String
deriving DecidableEq, Repr

/-- The choices check of the action argument (line 74). -/
def parse_action_choice : String → Option CliAction
  | "get" => some CliAction.get
  | "put" => some CliAction.put
  | "dryget" => some CliAction.dryget
  | "dryput" => some CliAction.dryput
  | _ => none

/-- Embedding of the argparse configuration of lines 70-77 applied to an
argument vector.  All four arguments (bucket, key, action, timeout) are
declared positionally; under argparse a positional argument is required
even when a default is supplied (a default takes effect only together
with an optional nargs), so the default 1000 passed for timeout on line 76
is dead and a three-argument command line is rejected with the standard
missing-argument error before usage_demo runs. -/
def parse_args (argv : List String) : Except String ParsedArgs :=
  match argv with
  | [bucket, key, action, timeout] =>
    match parse_action_choice action with
    | some a => Except.ok ⟨bucket, key, a, timeout⟩
    | none => Except.error ("argument action: invalid choice: " ++ action)
  | [_, _, _] => Except.error "the following arguments are required: timeout"
  | _ => Except.error "wrong number of arguments"

theorem resolver_cond_false (l : List String) :
    ¬(l.length = 4 ∧ l.getD 0 "" = "https://s3"
        ∧ l.getD 2 "" = "backblazeb2" ∧ l.getD 2 "" = "com") := by
  rintro ⟨-, -, h1, h2⟩
  exact absurd (h1.symm.trans h2) (by decide)

theorem resolveEndpoint_eq (s : Option String) :
    resolveEndpoint s =
      (⟨"us-west-002", "https://s3.us-west-002.backblazeb2.com"⟩,
       [⟨LogLevel.debug, "Getting s3ApiUrl value"⟩,
        ⟨LogLevel.debug, "Using the s3ApiUrl https://s3.us-west-002.backblazeb2.com."⟩]) := by
  simp only [resolveEndpoint]
  rw [if_neg (resolver_cond_false _)]
  rfl

/-- C1: the claim says a correctly formed override whose region is in the
allow-list is adopted.  The code never adopts it: the validation on line 30
compares segment 2 to both provider-domain literals, which is
unsatisfiable, and the module variable region is never reassigned.  At the
correctly formed override for region us-west-001 the resolver still
produces the default configuration. -/
theorem c1_resolver_ignores_wellformed_override :
    wellFormedOverride "https://s3.us-west-001.backblazeb2.com" ∧
    (resolveEndpoint (some "https://s3.us-west-001.backblazeb2.com")).1 =
      ⟨"us-west-002", "https://s3.us-west-002.backblazeb2.com"⟩ ∧
    "us-west-002" ≠ "us-west-001" := by
  refine ⟨by decide, ?_, by decide⟩
  rw [resolveEndpoint_eq]

/-- C2: for every malformed or unlisted override string the resolved
Endpoint Configuration equals the default (region us-west-002, URL
https://s3.us-west-002.backblazeb2.com). -/
theorem c2_invalid_override_resolves_to_default
    (s : String) (_h : ¬ wellFormedOverride s) :
    (resolveEndpoint (some s)).1 =
      ⟨"us-west-002", "https://s3.us-west-002.backblazeb2.com"⟩ := by
  rw [resolveEndpoint_eq]

theorem c2_invalid_override_resolves_to_default_witness :
    ¬ wellFormedOverride "gopher://u" ∧
    (resolveEndpoint (some "gopher://u")).1 =
      ⟨"us-west-002", "https://s3.us-west-002.backblazeb2.com"⟩ :=
  ⟨by decide, c2_invalid_override_resolves_to_default "gopher://u" (by decide)⟩

/-- C8 counterexample: the claim says a warning is logged on an invalid
override.  At the invalid override string not-a-valid-url the resolver
emits only debug-level records; no warning (and no error) is logged. -/
theorem c8_counterexample_no_warning_logged :
    (resolveEndpoint (some "not-a-valid-url")).2.map LogEntry.level =
      [LogLevel.debug, LogLevel.debug] ∧
    LogLevel.warning ∉ (resolveEndpoint (some "not-a-valid-url")).2.map LogEntry.level := by
  refine ⟨?_, by decide⟩
  rw [resolveEndpoint_eq]
  rfl

/-- C8 (amended): endpoint resolution is a total function that never
propagates an exception; every override value, valid or not, degrades to
the default configuration, and the only log records emitted are
debug-level, so no warning is logged. -/
theorem c8_resolution_never_raises_falls_back (s : Option String) :
    (resolveEndpoint s).1 =
      ⟨"us-west-002", "https://s3.us-west-002.backblazeb2.com"⟩ ∧
    (resolveEndpoint s).2.map LogEntry.level = [LogLevel.debug, LogLevel.debug] := by
  rw [resolveEndpoint_eq]
  exact ⟨rfl, rfl⟩

theorem string_append_empty (s : String) : s ++ "" = s := by
  cases s with
  | mk d => show String.mk (d ++ []) = String.mk d
            rw [List.append_nil]

/-- C3: the action-to-client-method dispatch of line 81 is total on the
four actions: get and dryget map to get_object (the retrieve-object client
method), put and dryput map to put_object (the store-object client
method). -/
theorem c3_client_action_total_mapping :
    client_action CliAction.get = "get_object" ∧
    client_action CliAction.dryget = "get_object" ∧
    client_action CliAction.put = "put_object" ∧
    client_action CliAction.dryput = "put_object" :=
  ⟨rfl, rfl, rfl, rfl⟩

/-- C4: for the dry-run actions no HTTP call at all is performed and the
printed output contains the literal presigned URL returned by the
signer (as a substring of a printed line). -/
theorem c4_dry_actions_no_http_print_url
    (s3_client : String → MethodParams → Nat → Except ClientError String)
    (http : HttpCall → HttpResponse) (fs : String → Except Unit String)
    (bucket key : String) (action : CliAction) (timeout : Nat) (url : String)
    (hdry : action = CliAction.dryget ∨ action = CliAction.dryput)
    (hsign : s3_client (client_action action) ⟨bucket, key⟩ timeout = Except.ok url) :
    (usage_demo s3_client http fs bucket key action timeout).calls = [] ∧
    ∃ pre post, (pre ++ url ++ post) ∈
      (usage_demo s3_client http fs bucket key action timeout).output := by
  rcases hdry with h | h <;> subst h <;>
    simp only [usage_demo, generate_presigned_url, hsign] <;>
    refine ⟨trivial, "The presigned URL is: ", "", ?_⟩ <;>
    rw [string_append_empty] <;> simp

/-- C5: for action get with the signer returning a URL, exactly one HTTP
call is performed, it is a GET, its target is exactly that URL, the run
propagates no error, and the printed output contains the status code and
the body returned by that GET. -/
theorem c5_get_performs_exactly_one_get
    (s3_client : String → MethodParams → Nat → Except ClientError String)
    (http : HttpCall → HttpResponse) (fs : String → Except Unit String)
    (bucket key : String) (timeout : Nat) (url : String)
    (hsign : s3_client (client_action CliAction.get) ⟨bucket, key⟩ timeout = Except.ok url) :
    (usage_demo s3_client http fs bucket key CliAction.get timeout).calls =
      [HttpCall.get url] ∧
    (usage_demo s3_client http fs bucket key CliAction.get timeout).err = none ∧
    ("Status: " ++ toString (http (HttpCall.get url)).status_code) ∈
      (usage_demo s3_client http fs bucket key CliAction.get timeout).output ∧
    (http (HttpCall.get url)).text ∈
      (usage_demo s3_client http fs bucket key CliAction.get timeout).output := by
  simp only [usage_demo, generate_presigned_url, hsign]
  refine ⟨trivial, trivial, ?_, ?_⟩ <;> simp

/-- C6: for action put where reading the local file named by the key
fails, the run ends with the FileReadError and no HTTP call of any kind is
performed. -/
theorem c6_put_missing_file_no_http
    (s3_client : String → MethodParams → Nat → Except ClientError String)
    (http : HttpCall → HttpResponse) (fs : String → Except Unit String)
    (bucket key : String) (timeout : Nat) (url : String)
    (hsign : s3_client (client_action CliAction.put) ⟨bucket, key⟩ timeout = Except.ok url)
    (hfs : fs key = Except.error ()) :
    (usage_demo s3_client http fs bucket key CliAction.put timeout).err =
      some (DemoError.fileReadError key) ∧
    (usage_demo s3_client http fs bucket key CliAction.put timeout).calls = [] := by
  simp only [usage_demo, generate_presigned_url, hsign, hfs]
  exact ⟨trivial, trivial⟩

/-- C7: when the external signer rejects the request,
generate_presigned_url propagates that error to its caller (the re-raise
of line 61); no URL is returned. -/
theorem c7_signing_error_propagates
    (s3_client : String → MethodParams → Nat → Except ClientError String)
    (client_method : String) (p : MethodParams) (expires_in : Nat) (e : ClientError)
    (h : s3_client client_method p expires_in = Except.error e) :
    generate_presigned_url s3_client client_method p expires_in = Except.error e := by
  simp only [generate_presigned_url, h]

/-- C9: the claim says an omitted timeout argument falls back to the
default expiry 1000.  Under argparse a positional argument is required
even when a default is supplied, so the three-argument command line is
rejected before any presign request; the default only matters in the
four-argument form, where the timeout comes from the command line
anyway. -/
theorem c9_timeout_required_despite_default :
    parse_args ["my-bucket", "my-key", "get"] =
      Except.error "the following arguments are required: timeout" ∧
    parse_args ["my-bucket", "my-key", "get", "1000"] =
      Except.ok ⟨"my-bucket", "my-key", CliAction.get, "1000"⟩ :=
  ⟨rfl, rfl⟩

/-- C10: for the same bucket, key and signer-returned URL the dry-run
outputs of dryget and dryput share the same leading lines (banner, requests
notice, the URL line) and end with their heading followed by the same
transfer invocation: character for character the identical curl -XPUT
upload command, with -T on the key and the X-Bz-Content-Sha1 header.  The
two outputs differ only in the heading line; dryget prints no
download-style command. -/
theorem c10_dry_runs_print_identical_curl
    (s3_client : String → MethodParams → Nat → Except ClientError String)
    (http : HttpCall → HttpResponse) (fs : String → Except Unit String)
    (bucket key : String) (timeout : Nat) (url : String)
    (hg : s3_client (client_action CliAction.dryget) ⟨bucket, key⟩ timeout = Except.ok url)
    (hp : s3_client (client_action CliAction.dryput) ⟨bucket, key⟩ timeout = Except.ok url) :
    ∃ pre cmd,
      (usage_demo s3_client http fs bucket key CliAction.dryget timeout).output =
        pre ++ ["To download the file you can use", cmd] ∧
      (usage_demo s3_client http fs bucket key CliAction.dryput timeout).output =
        pre ++ ["To upload the file you can use", cmd] ∧
      cmd = "curl -XPUT \x27" ++ url ++ "\x27 -T " ++ key ++
        " -H \"X-Bz-Content-Sha1: $(sha1sum " ++ key ++ " |cut -d\x27 \x27  -f1)\"" := by
  refine ⟨[dashes, "Welcome to the Amazon S3 presigned URL demo.", dashes,
           "Using the Requests package to send a request to the URL.",
           "The presigned URL is: " ++ url], curl_line url key, ?_, ?_, rfl⟩
  · simp only [usage_demo, generate_presigned_url, hg]
    simp
  · simp only [usage_demo, generate_presigned_url, hp]
    simp

theorem c4_dry_actions_no_http_print_url_witness :
    ((CliAction.dryget = CliAction.dryget ∨ CliAction.dryget = CliAction.dryput) ∧
     (fun (_ : String) (_ : MethodParams) (_ : Nat) =>
        (Except.ok "https://example/u" : Except ClientError String))
       (client_action CliAction.dryget) ⟨"b", "k"⟩ 60 = Except.ok "https://example/u") ∧
    (usage_demo (fun _ _ _ => Except.ok "https://example/u")
        (fun _ => ⟨200, "ok"⟩) (fun _ => Except.error ())
        "b" "k" CliAction.dryget 60).calls = [] ∧
    ∃ pre post, (pre ++ "https://example/u" ++ post) ∈
      (usage_demo (fun _ _ _ => Except.ok "https://example/u")
        (fun _ => ⟨200, "ok"⟩) (fun _ => Except.error ())
        "b" "k" CliAction.dryget 60).output :=
  ⟨⟨Or.inl rfl, rfl⟩,
   c4_dry_actions_no_http_print_url (fun _ _ _ => Except.ok "https://example/u")
     (fun _ => ⟨200, "ok"⟩) (fun _ => Except.error ()) "b" "k" CliAction.dryget 60
     "https://example/u" (Or.inl rfl) rfl⟩

theorem c5_get_performs_exactly_one_get_witness :
    (fun (_ : String) (_ : MethodParams) (_ : Nat) =>
        (Except.ok "https://example/x" : Except ClientError String))
      (client_action CliAction.get) ⟨"b", "k"⟩ 60 = Except.ok "https://example/x" ∧
    (usage_demo (fun _ _ _ => Except.ok "https://example/x")
        (fun _ => ⟨200, "hello"⟩) (fun _ => Except.error ())
        "b" "k" CliAction.get 60).calls = [HttpCall.get "https://example/x"] ∧
    (usage_demo (fun _ _ _ => Except.ok "https://example/x")
        (fun _ => ⟨200, "hello"⟩) (fun _ => Except.error ())
        "b" "k" CliAction.get 60).err = none ∧
    "Status: 200" ∈
      (usage_demo (fun _ _ _ => Except.ok "https://example/x")
        (fun _ => ⟨200, "hello"⟩) (fun _ => Except.error ())
        "b" "k" CliAction.get 60).output ∧
    "hello" ∈
      (usage_demo (fun _ _ _ => Except.ok "https://example/x")
        (fun _ => ⟨200, "hello"⟩) (fun _ => Except.error ())
        "b" "k" CliAction.get 60).output :=
  ⟨rfl,
   c5_get_performs_exactly_one_get (fun _ _ _ => Except.ok "https://example/x")
     (fun _ => ⟨200, "hello"⟩) (fun _ => Except.error ()) "b" "k" 60
     "https://example/x" rfl⟩

theorem c6_put_missing_file_no_http_witness :
    ((fun (_ : String) (_ : MethodParams) (_ : Nat) =>
        (Except.ok "https://example/p" : Except ClientError String))
       (client_action CliAction.put) ⟨"b", "missing.txt"⟩ 60 = Except.ok "https://example/p" ∧
     (fun (_ : String) => (Except.error () : Except Unit String)) "missing.txt" =
       Except.error ()) ∧
    (usage_demo (fun _ _ _ => Except.ok "https://example/p")
        (fun _ => ⟨200, "ok"⟩) (fun _ => Except.error ())
        "b" "missing.txt" CliAction.put 60).err =
      some (DemoError.fileReadError "missing.txt") ∧
    (usage_demo (fun _ _ _ => Except.ok "https://example/p")
        (fun _ => ⟨200, "ok"⟩) (fun _ => Except.error ())
        "b" "missing.txt" CliAction.put 60).calls = [] :=
  ⟨⟨rfl, rfl⟩,
   c6_put_missing_file_no_http (fun _ _ _ => Except.ok "https://example/p")
     (fun _ => ⟨200, "ok"⟩) (fun _ => Except.error ()) "b" "missing.txt" 60
     "https://example/p" rfl rfl⟩

theorem c7_signing_error_propagates_witness :
    (fun (_ : String) (_ : MethodParams) (_ : Nat) =>
        (Except.error ⟨"AccessDenied"⟩ : Except ClientError String))
      "get_object" ⟨"b", "k"⟩ 1000 = Except.error ⟨"AccessDenied"⟩ ∧
    generate_presigned_url (fun _ _ _ => Except.error ⟨"AccessDenied"⟩)
      "get_object" ⟨"b", "k"⟩ 1000 = Except.error ⟨"AccessDenied"⟩ :=
  ⟨rfl,
   c7_signing_error_propagates (fun _ _ _ => Except.error ⟨"AccessDenied"⟩)
     "get_object" ⟨"b", "k"⟩ 1000 ⟨"AccessDenied"⟩ rfl⟩

theorem c10_dry_runs_print_identical_curl_witness :
    ((fun (_ : String) (_ : MethodParams) (_ : Nat) =>
        (Except.ok "https://example/d" : Except ClientError String))
       (client_action CliAction.dryget) ⟨"b", "k"⟩ 60 = Except.ok "https://example/d" ∧
     (fun (_ : String) (_ : MethodParams) (_ : Nat) =>
        (Except.ok "https://example/d" : Except ClientError String))
       (client_action CliAction.dryput) ⟨"b", "k"⟩ 60 = Except.ok "https://example/d") ∧
    ∃ pre cmd,
      (usage_demo (fun _ _ _ => Except.ok "https://example/d")
          (fun _ => ⟨200, "ok"⟩) (fun _ => Except.error ())
          "b" "k" CliAction.dryget 60).output =
        pre ++ ["To download the file you can use", cmd] ∧
      (usage_demo (fun _ _ _ => Except.ok "https://example/d")
          (fun _ => ⟨200, "ok"⟩) (fun _ => Except.error ())
          "b" "k" CliAction.dryput 60).output =
        pre ++ ["To upload the file you can use", cmd] ∧
      cmd = "curl -XPUT \x27" ++ "https://example/d" ++ "\x27 -T " ++ "k" ++
        " -H \"X-Bz-Content-Sha1: $(sha1sum " ++ "k" ++ " |cut -d\x27 \x27  -f1)\"" :=
  ⟨⟨rfl, rfl⟩,
   c10_dry_runs_print_identical_curl (fun _ _ _ => Except.ok "https://example/d")
     (fun _ => ⟨200, "ok"⟩) (fun _ => Except.error ()) "b" "k" 60
     "https://example/d" rfl rfl⟩
